import Mathlib

/-!
Verification of the `sunevent` Go package (file `sunevent.go`) against its
natural-language specification.  The float64 arithmetic of the source is
modelled over the real numbers; the `panic("no answer")` in `sunRiseSet`
is modelled as `Except.error "no answer"`; the implicit `time.Now()` is
modelled as an explicit reference-instant parameter.
-/

namespace Sunevent

open Real

/-- First loop of `normalizeRange`: `for v < 0 { v += max }`.
The loop only makes progress when `0 < max`; for `0 < max` this is exactly
the source loop (for `max ≤ 0` the source loop would not terminate). -/
noncomputable def normUp (v m : ℝ) : ℝ :=
  if h : v < 0 ∧ 0 < m then normUp (v + m) m else v
termination_by (⌈-v / m⌉).toNat
decreasing_by
  have hm : 0 < m := h.2
  have hv : 0 < -v := by linarith [h.1]
  have hpos : 0 < -v / m := div_pos hv hm
  have hceil : 0 < ⌈-v / m⌉ := Int.ceil_pos.mpr hpos
  have hstep : ⌈-(v + m) / m⌉ = ⌈-v / m⌉ - 1 := by
    have : -(v + m) / m = -v / m - (1 : ℤ) := by
      push_cast
      field_simp
      ring
    rw [this, Int.ceil_sub_int]
  rw [hstep]
  exact (Int.toNat_lt_toNat hceil).mpr (by omega)

/-- Second loop of `normalizeRange`: `for v >= max { v -= max }`.
Again the guard `0 < m` records the condition under which the source loop
terminates. -/
noncomputable def normDown (v m : ℝ) : ℝ :=
  if h : m ≤ v ∧ 0 < m then normDown (v - m) m else v
termination_by (⌊v / m⌋).toNat
decreasing_by
  have hm : 0 < m := h.2
  have hv : 0 < v := lt_of_lt_of_le hm h.1
  have hone : (1 : ℝ) ≤ v / m := (one_le_div hm).mpr h.1
  have hfl : 0 < ⌊v / m⌋ := by
    have := Int.le_floor.mpr (by exact_mod_cast hone : ((1 : ℤ) : ℝ) ≤ v / m)
    omega
  have hstep : ⌊(v - m) / m⌋ = ⌊v / m⌋ - 1 := by
    have : (v - m) / m = v / m - (1 : ℤ) := by
      push_cast
      field_simp
    rw [this, Int.floor_sub_int]
  rw [hstep]
  exact (Int.toNat_lt_toNat hfl).mpr (by omega)

/-- `normalizeRange` from the source: add `max` while negative, then
subtract `max` while `≥ max`. -/
noncomputable def normalizeRange (v m : ℝ) : ℝ := normDown (normUp v m) m

lemma normUp_of_nonneg {v : ℝ} (m : ℝ) (h : 0 ≤ v) : normUp v m = v := by
  rw [normUp]
  simp [not_lt.mpr h]

lemma normUp_of_neg {v m : ℝ} (hv : v < 0) (hm : 0 < m) :
    normUp v m = normUp (v + m) m := by
  rw [normUp]
  simp [hv, hm]

lemma normDown_of_lt {v m : ℝ} (h : v < m) : normDown v m = v := by
  rw [normDown]
  simp [not_le.mpr h]

lemma normDown_of_le {v m : ℝ} (hv : m ≤ v) (hm : 0 < m) :
    normDown v m = normDown (v - m) m := by
  rw [normDown]
  simp [hv, hm]

lemma normUp_nonneg (v m : ℝ) (hm : 0 < m) : 0 ≤ normUp v m := by
  induction v, m using normUp.induct with
  | case1 v m h ih =>
    rw [normUp_of_neg h.1 h.2]
    exact ih hm
  | case2 v m h =>
    rw [normUp]
    simp only [h, dite_false]
    rcases not_and_or.mp h with h1 | h2
    · exact not_lt.mp h1
    · exact absurd hm h2

lemma normUp_lt (v m : ℝ) (hm : 0 < m) (hv : v < m) : normUp v m < m := by
  induction v, m using normUp.induct with
  | case1 v m h ih =>
    rw [normUp_of_neg h.1 h.2]
    exact ih hm (by linarith [h.1])
  | case2 v m h =>
    rw [normUp]
    simp only [h, dite_false]
    exact hv

lemma normDown_lt (v m : ℝ) (hm : 0 < m) : normDown v m < m := by
  induction v, m using normDown.induct with
  | case1 v m h ih =>
    rw [normDown_of_le h.1 h.2]
    exact ih hm
  | case2 v m h =>
    rw [normDown]
    simp only [h, dite_false]
    rcases not_and_or.mp h with h1 | h2
    · exact not_le.mp h1
    · exact absurd hm h2

lemma normDown_nonneg (v m : ℝ) (hv : 0 ≤ v) (hm : 0 < m) :
    0 ≤ normDown v m := by
  induction v, m using normDown.induct with
  | case1 v m h ih =>
    rw [normDown_of_le h.1 h.2]
    exact ih (by linarith [h.1, h.2]) hm
  | case2 v m h =>
    rw [normDown]
    simp only [h, dite_false]
    exact hv

lemma normalizeRange_nonneg (v m : ℝ) (hm : 0 < m) :
    0 ≤ normalizeRange v m :=
  normDown_nonneg _ m (normUp_nonneg v m hm) hm

lemma normalizeRange_lt (v m : ℝ) (hm : 0 < m) : normalizeRange v m < m :=
  normDown_lt _ m hm

lemma normalizeRange_eq_self {v m : ℝ} (h0 : 0 ≤ v) (h1 : v < m) :
    normalizeRange v m = v := by
  rw [normalizeRange, normUp_of_nonneg m h0, normDown_of_lt h1]

lemma normalizeRange_sub {v m : ℝ} (hm : 0 < m) (h0 : m ≤ v)
    (h1 : v < 2 * m) : normalizeRange v m = v - m := by
  have h0' : (0 : ℝ) ≤ v := le_trans (le_of_lt hm) h0
  rw [normalizeRange, normUp_of_nonneg m h0', normDown_of_le h0 hm,
    normDown_of_lt (by linarith)]

/-- Step-indexed version of the first `normalizeRange` loop; one unit of
fuel per loop iteration, `none` when the fuel runs out before the loop
guard fails. -/
noncomputable def normUpFuel : ℕ → ℝ → ℝ → Option ℝ
  | 0, v, _ => if v < 0 then none else some v
  | n + 1, v, m => if v < 0 then normUpFuel n (v + m) m else some v

/-- Step-indexed version of the second `normalizeRange` loop. -/
noncomputable def normDownFuel : ℕ → ℝ → ℝ → Option ℝ
  | 0, v, m => if m ≤ v then none else some v
  | n + 1, v, m => if m ≤ v then normDownFuel n (v - m) m else some v

/-- Step-indexed `normalizeRange`: both loops run with the given fuel. -/
noncomputable def normalizeFuel (fuel : ℕ) (v m : ℝ) : Option ℝ :=
  (normUpFuel fuel v m).bind fun w => normDownFuel fuel w m

/-- `math.Floor`, returning a real as the Go function returns a float. -/
noncomputable def mathFloor (x : ℝ) : ℝ := ⌊x⌋

/-- Go `int(x)` conversion of a float: truncation toward zero. -/
noncomputable def goInt (x : ℝ) : ℤ := if 0 ≤ x then ⌊x⌋ else ⌈x⌉

noncomputable def degreeToRadian (x : ℝ) : ℝ := (Real.pi / 180) * x

noncomputable def radianToDegree (x : ℝ) : ℝ := (180 / Real.pi) * x

noncomputable def degreeSin (x : ℝ) : ℝ := Real.sin (degreeToRadian x)

noncomputable def degreeAsin (x : ℝ) : ℝ := radianToDegree (Real.arcsin x)

noncomputable def degreeAtan (x : ℝ) : ℝ := radianToDegree (Real.arctan x)

noncomputable def degreeTan (x : ℝ) : ℝ := Real.tan (degreeToRadian x)

noncomputable def degreeCos (x : ℝ) : ℝ := Real.cos (degreeToRadian x)

noncomputable def degreeAcos (x : ℝ) : ℝ := radianToDegree (Real.arccos x)

/-- A fixed time zone, as produced by `time.FixedZone(name, offset)`. -/
structure GoZone where
  name : String
  offsetSeconds : ℤ

/-- The data `sunRiseSet` reads from `time.Now()`: the calendar date, the
ordinal day of the year (`YearDay`), and the local zone. -/
structure GoNow where
  year : ℤ
  month : ℤ
  day : ℤ
  yearDay : ℤ
  zone : GoZone

/-- The timestamp built by `time.Date(...)` on the success path.  All the
components passed by the source lie in their in-range intervals, so
`time.Date` performs no carrying and the fields are stored verbatim. -/
structure GoTimestamp where
  year : ℤ
  month : ℤ
  day : ℤ
  hour : ℤ
  minute : ℤ
  second : ℤ
  nanosecond : ℤ
  loc : GoZone

/-- `sunset := sunrise != true` from the source. -/
def goSunset (sunrise : Bool) : Bool := sunrise != true

/-- Step 2: `lngHour = longitude / 15`. -/
noncomputable def lngHour (longitude : ℝ) : ℝ := longitude / 15

/-- Step 2: the approximate time `t`. -/
noncomputable def sun_t (sunrise : Bool) (longitude n : ℝ) : ℝ :=
  if goSunset sunrise then n + ((18 - lngHour longitude) / 24)
  else n + ((6 - lngHour longitude) / 24)

/-- Step 3: the Sun's mean anomaly `M`. -/
noncomputable def sunM (sunrise : Bool) (longitude n : ℝ) : ℝ :=
  (0.9856 * sun_t sunrise longitude n) - 3.289

/-- Step 4: the Sun's true longitude `L`, normalized into `[0,360)`. -/
noncomputable def sunL (sunrise : Bool) (longitude n : ℝ) : ℝ :=
  normalizeRange
    (sunM sunrise longitude n
      + (1.916 * degreeSin (sunM sunrise longitude n))
      + (0.020 * degreeSin (2 * sunM sunrise longitude n)) + 282.634) 360

/-- Step 5a: right ascension before the quadrant fix, normalized. -/
noncomputable def sunRA0 (sunrise : Bool) (longitude n : ℝ) : ℝ :=
  normalizeRange (degreeAtan (0.91764 * degreeTan (sunL sunrise longitude n))) 360

/-- Step 5b: `Lquadrant = floor(L/90) * 90`. -/
noncomputable def sunLquadrant (sunrise : Bool) (longitude n : ℝ) : ℝ :=
  mathFloor (sunL sunrise longitude n / 90) * 90

/-- Step 5b: `RAquadrant = floor(RA/90) * 90`. -/
noncomputable def sunRAquadrant (sunrise : Bool) (longitude n : ℝ) : ℝ :=
  mathFloor (sunRA0 sunrise longitude n / 90) * 90

/-- Step 5b: right ascension moved into the same quadrant as `L`. -/
noncomputable def sunRAadj (sunrise : Bool) (longitude n : ℝ) : ℝ :=
  sunRA0 sunrise longitude n
    + (sunLquadrant sunrise longitude n - sunRAquadrant sunrise longitude n)

/-- Step 5c: right ascension converted to hours. -/
noncomputable def sunRA (sunrise : Bool) (longitude n : ℝ) : ℝ :=
  sunRAadj sunrise longitude n / 15

/-- Step 6: `sinDec = 0.39782 * sin(L)`. -/
noncomputable def sunSinDec (sunrise : Bool) (longitude n : ℝ) : ℝ :=
  0.39782 * degreeSin (sunL sunrise longitude n)

/-- Step 6: `cosDec = cos(asin(sinDec))`. -/
noncomputable def sunCosDec (sunrise : Bool) (longitude n : ℝ) : ℝ :=
  degreeCos (degreeAsin (sunSinDec sunrise longitude n))

/-- Step 7a: the cosine of the Sun's local hour angle. -/
noncomputable def sunCosH (sunrise : Bool) (latitude longitude zenith n : ℝ) : ℝ :=
  (degreeCos zenith - (sunSinDec sunrise longitude n * degreeSin latitude))
    / (sunCosDec sunrise longitude n * degreeCos latitude)

/-- Step 7b: the hour angle `H` in degrees (before the division by 15). -/
noncomputable def sunHdeg (sunrise : Bool) (latitude longitude zenith n : ℝ) : ℝ :=
  if goSunset sunrise then degreeAcos (sunCosH sunrise latitude longitude zenith n)
  else 360 - degreeAcos (sunCosH sunrise latitude longitude zenith n)

/-- Step 7b: `H` converted into hours. -/
noncomputable def sunH (sunrise : Bool) (latitude longitude zenith n : ℝ) : ℝ :=
  sunHdeg sunrise latitude longitude zenith n / 15

/-- Step 8: local mean time `T = H + RA - 0.06571*t - 6.622`. -/
noncomputable def sunTmean (sunrise : Bool) (latitude longitude zenith n : ℝ) : ℝ :=
  sunH sunrise latitude longitude zenith n + sunRA sunrise longitude n
    - (0.06571 * sun_t sunrise longitude n) - 6.622

/-- Step 9: `UT`, normalized into `[0,24)`. -/
noncomputable def sunUT (sunrise : Bool) (latitude longitude zenith n : ℝ) : ℝ :=
  normalizeRange (sunTmean sunrise latitude longitude zenith n - lngHour longitude) 24

/-- Step 10: the local civil time, normalized into `[0,24)`. -/
noncomputable def sunLocalT (sunrise : Bool)
    (latitude longitude zenith n localOffset : ℝ) : ℝ :=
  normalizeRange (sunUT sunrise latitude longitude zenith n + localOffset) 24

/-- `hour := math.Floor(localT)` (still a float in the source). -/
noncomputable def goHour (localT : ℝ) : ℝ := mathFloor localT

/-- `minute := math.Floor((localT - hour) * 60)`. -/
noncomputable def goMinute (localT : ℝ) : ℝ :=
  mathFloor ((localT - goHour localT) * 60)

/-- `second := math.Floor(((localT-hour)*60 - minute) * 60)`. -/
noncomputable def goSecond (localT : ℝ) : ℝ :=
  mathFloor (((localT - goHour localT) * 60 - goMinute localT) * 60)

/-- The `time.Date(today.Year(), today.Month(), today.Day(), int(hour),
int(minute), int(second), 0, loc)` call on the success path. -/
noncomputable def mkResult (today : GoNow) (localT : ℝ) : GoTimestamp :=
  { year := today.year, month := today.month, day := today.day,
    hour := goInt (goHour localT), minute := goInt (goMinute localT),
    second := goInt (goSecond localT), nanosecond := 0, loc := today.zone }

/-- The core calculator `sunRiseSet`.  The `panic("no answer")` of the
source is modelled as `Except.error "no answer"`; the `time.Now()` data is
the explicit `today` parameter. -/
noncomputable def sunRiseSet (sunrise : Bool) (latitude longitude zenith : ℝ)
    (today : GoNow) : Except String GoTimestamp :=
  if sunCosH sunrise latitude longitude zenith (today.yearDay : ℝ) > 1
      ∨ sunCosH sunrise latitude longitude zenith (today.yearDay : ℝ) < -1 then
    Except.error "no answer"
  else
    Except.ok (mkResult today
      (sunLocalT sunrise latitude longitude zenith (today.yearDay : ℝ)
        ((today.zone.offsetSeconds : ℝ) / 3600)))

noncomputable def SunRise (latitude longitude : ℝ) (today : GoNow) :
    Except String GoTimestamp :=
  sunRiseSet true latitude longitude 90 today

noncomputable def SunSet (latitude longitude : ℝ) (today : GoNow) :
    Except String GoTimestamp :=
  sunRiseSet false latitude longitude 90 today

noncomputable def Dawn (latitude longitude : ℝ) (today : GoNow) :
    Except String GoTimestamp :=
  sunRiseSet true latitude longitude 83 today

noncomputable def Dusk (latitude longitude : ℝ) (today : GoNow) :
    Except String GoTimestamp :=
  sunRiseSet false latitude longitude 83 today

/-!
Reference definitions, written from the specification's own wording of the
nine-step procedure (spec §4.2 and the claim texts), to be compared with
the definitions above, which are transcribed from the source.
-/

/-- Spec step 2: `t = N + ((6 - lngHour)/24)` if rising else
`N + ((18 - lngHour)/24)`, with `lngHour = longitude/15`. -/
noncomputable def ref_t (rising : Bool) (longitude n : ℝ) : ℝ :=
  if rising then n + ((6 - longitude / 15) / 24)
  else n + ((18 - longitude / 15) / 24)

/-- Spec step 3: `M = 0.9856*t - 3.289`. -/
noncomputable def refM (rising : Bool) (longitude n : ℝ) : ℝ :=
  0.9856 * ref_t rising longitude n - 3.289

/-- Spec step 4: `L = normalize(M + 1.916*sin(M) + 0.020*sin(2M) + 282.634,
360)`, trigonometry in degrees. -/
noncomputable def refL (rising : Bool) (longitude n : ℝ) : ℝ :=
  normalizeRange
    (refM rising longitude n + 1.916 * degreeSin (refM rising longitude n)
      + 0.020 * degreeSin (2 * refM rising longitude n) + 282.634) 360

/-- Spec step 5: `RA = normalize(atan(0.91764*tan(L)), 360)` adjusted by
`(floor(L/90)*90 - floor(RA/90)*90)`, then divided by 15. -/
noncomputable def refRA (rising : Bool) (longitude n : ℝ) : ℝ :=
  (normalizeRange (degreeAtan (0.91764 * degreeTan (refL rising longitude n))) 360
    + (mathFloor (refL rising longitude n / 90) * 90
      - mathFloor
        (normalizeRange (degreeAtan (0.91764 * degreeTan (refL rising longitude n))) 360
          / 90) * 90)) / 15

/-- Spec step 6: `sinDec = 0.39782*sin(L)`. -/
noncomputable def refSinDec (rising : Bool) (longitude n : ℝ) : ℝ :=
  0.39782 * degreeSin (refL rising longitude n)

/-- Spec step 7: `cosH = (cos(zenith) - sinDec*sin(latitude)) /
(cos(asin(sinDec))*cos(latitude))`. -/
noncomputable def refCosH (rising : Bool) (latitude longitude zenith n : ℝ) : ℝ :=
  (degreeCos zenith - refSinDec rising longitude n * degreeSin latitude)
    / (degreeCos (degreeAsin (refSinDec rising longitude n)) * degreeCos latitude)

/-- Spec step 7: `H = (360 - acos(cosH))/15` if rising else
`acos(cosH)/15`. -/
noncomputable def refH (rising : Bool) (latitude longitude zenith n : ℝ) : ℝ :=
  if rising then (360 - degreeAcos (refCosH rising latitude longitude zenith n)) / 15
  else degreeAcos (refCosH rising latitude longitude zenith n) / 15

/-- Spec step 8: `T = H + RA - 0.06571*t - 6.622`. -/
noncomputable def refTmean (rising : Bool) (latitude longitude zenith n : ℝ) : ℝ :=
  refH rising latitude longitude zenith n + refRA rising longitude n
    - 0.06571 * ref_t rising longitude n - 6.622

/-- Spec step 9: `UT = normalize(T - lngHour, 24)`. -/
noncomputable def refUT (rising : Bool) (latitude longitude zenith n : ℝ) : ℝ :=
  normalizeRange (refTmean rising latitude longitude zenith n - longitude / 15) 24

/-- Spec step 9: `localT = normalize(UT + localUtcOffsetHours, 24)`. -/
noncomputable def refLocalT (rising : Bool)
    (latitude longitude zenith n localOffset : ℝ) : ℝ :=
  normalizeRange (refUT rising latitude longitude zenith n + localOffset) 24

/-- Spec step 10: `hour = floor(localT)`. -/
noncomputable def refHour (localT : ℝ) : ℤ := ⌊localT⌋

/-- Spec step 10: `minute = floor((localT-hour)*60)`. -/
noncomputable def refMinute (localT : ℝ) : ℤ :=
  ⌊(localT - (refHour localT : ℝ)) * 60⌋

/-- Spec step 10: `second = floor(((localT-hour)*60 - minute)*60)`. -/
noncomputable def refSecond (localT : ℝ) : ℤ :=
  ⌊((localT - (refHour localT : ℝ)) * 60 - (refMinute localT : ℝ)) * 60⌋

lemma sun_t_eq_ref (sunrise : Bool) (longitude n : ℝ) :
    sun_t sunrise longitude n = ref_t sunrise longitude n := by
  cases sunrise <;> rfl

lemma sunM_eq_ref (sunrise : Bool) (longitude n : ℝ) :
    sunM sunrise longitude n = refM sunrise longitude n := by
  cases sunrise <;> rfl

lemma sunL_eq_ref (sunrise : Bool) (longitude n : ℝ) :
    sunL sunrise longitude n = refL sunrise longitude n := by
  cases sunrise <;> rfl

lemma sunRA_eq_ref (sunrise : Bool) (longitude n : ℝ) :
    sunRA sunrise longitude n = refRA sunrise longitude n := by
  cases sunrise <;> rfl

lemma sunSinDec_eq_ref (sunrise : Bool) (longitude n : ℝ) :
    sunSinDec sunrise longitude n = refSinDec sunrise longitude n := by
  cases sunrise <;> rfl

lemma sunCosH_eq_ref (sunrise : Bool) (latitude longitude zenith n : ℝ) :
    sunCosH sunrise latitude longitude zenith n
      = refCosH sunrise latitude longitude zenith n := by
  cases sunrise <;> rfl

lemma sunH_eq_ref (sunrise : Bool) (latitude longitude zenith n : ℝ) :
    sunH sunrise latitude longitude zenith n
      = refH sunrise latitude longitude zenith n := by
  cases sunrise <;> rfl

lemma sunTmean_eq_ref (sunrise : Bool) (latitude longitude zenith n : ℝ) :
    sunTmean sunrise latitude longitude zenith n
      = refTmean sunrise latitude longitude zenith n := by
  cases sunrise <;> rfl

lemma sunUT_eq_ref (sunrise : Bool) (latitude longitude zenith n : ℝ) :
    sunUT sunrise latitude longitude zenith n
      = refUT sunrise latitude longitude zenith n := by
  cases sunrise <;> rfl

lemma sunLocalT_eq_ref (sunrise : Bool) (latitude longitude zenith n off : ℝ) :
    sunLocalT sunrise latitude longitude zenith n off
      = refLocalT sunrise latitude longitude zenith n off := by
  cases sunrise <;> rfl

lemma normUpFuel_mono {n k : ℕ} {v m w : ℝ} (hnk : n ≤ k)
    (h : normUpFuel n v m = some w) : normUpFuel k v m = some w := by
  induction n generalizing k v with
  | zero =>
    rw [normUpFuel] at h
    by_cases h0 : v < 0
    · simp [h0] at h
    · cases k with
      | zero => rw [normUpFuel]; simpa [h0] using h
      | succ k => rw [normUpFuel]; simpa [h0] using h
  | succ n ih =>
    cases k with
    | zero => omega
    | succ k =>
      rw [normUpFuel] at h
      rw [normUpFuel]
      by_cases h0 : v < 0
      · simp only [h0, if_true] at h
        simp only [h0, if_true]
        exact ih (by omega) h
      · simpa [h0] using h

lemma normDownFuel_mono {n k : ℕ} {v m w : ℝ} (hnk : n ≤ k)
    (h : normDownFuel n v m = some w) : normDownFuel k v m = some w := by
  induction n generalizing k v with
  | zero =>
    rw [normDownFuel] at h
    by_cases h0 : m ≤ v
    · simp [h0] at h
    · cases k with
      | zero => rw [normDownFuel]; simpa [h0] using h
      | succ k => rw [normDownFuel]; simpa [h0] using h
  | succ n ih =>
    cases k with
    | zero => omega
    | succ k =>
      rw [normDownFuel] at h
      rw [normDownFuel]
      by_cases h0 : m ≤ v
      · simp only [h0, if_true] at h
        simp only [h0, if_true]
        exact ih (by omega) h
      · simpa [h0] using h

lemma normUp_fuel_exists (v m : ℝ) (hm : 0 < m) :
    ∃ fuel, normUpFuel fuel v m = some (normUp v m) := by
  induction v, m using normUp.induct with
  | case1 v m h ih =>
    obtain ⟨fuel, hf⟩ := ih hm
    refine ⟨fuel + 1, ?_⟩
    rw [normUpFuel]
    simp only [h.1, if_true]
    rw [hf, normUp_of_neg h.1 h.2]
  | case2 v m h =>
    have h0 : ¬v < 0 := by
      rcases not_and_or.mp h with h1 | h2
      · exact h1
      · exact absurd hm h2
    refine ⟨0, ?_⟩
    rw [normUpFuel, normUp]
    simp [h, h0]

lemma normDown_fuel_exists (v m : ℝ) (hm : 0 < m) :
    ∃ fuel, normDownFuel fuel v m = some (normDown v m) := by
  induction v, m using normDown.induct with
  | case1 v m h ih =>
    obtain ⟨fuel, hf⟩ := ih hm
    refine ⟨fuel + 1, ?_⟩
    rw [normDownFuel]
    simp only [h.1, if_true]
    rw [hf, normDown_of_le h.1 h.2]
  | case2 v m h =>
    have h0 : ¬m ≤ v := by
      rcases not_and_or.mp h with h1 | h2
      · exact h1
      · exact absurd hm h2
    refine ⟨0, ?_⟩
    rw [normDownFuel, normDown]
    simp [h, h0]

lemma goInt_intCast (z : ℤ) : goInt (z : ℝ) = z := by
  unfold goInt
  split <;> simp

lemma goInt_mathFloor (y : ℝ) : goInt (mathFloor y) = ⌊y⌋ := by
  unfold mathFloor
  exact goInt_intCast _

lemma goInt_goHour (x : ℝ) : goInt (goHour x) = ⌊x⌋ := goInt_mathFloor x

lemma goInt_goMinute (x : ℝ) : goInt (goMinute x) = ⌊60 * x⌋ - 60 * ⌊x⌋ := by
  unfold goMinute goHour
  rw [goInt_mathFloor]
  rw [show (x - mathFloor x) * 60 = 60 * x - ((60 * ⌊x⌋ : ℤ) : ℝ) by
    unfold mathFloor; push_cast; ring]
  rw [Int.floor_sub_int]

lemma goInt_goSecond (x : ℝ) :
    goInt (goSecond x) = ⌊3600 * x⌋ - 60 * ⌊60 * x⌋ := by
  unfold goSecond goHour
  rw [goInt_mathFloor]
  have hmin : goMinute x = ((⌊60 * x⌋ - 60 * ⌊x⌋ : ℤ) : ℝ) := by
    unfold goMinute goHour
    rw [show (x - mathFloor x) * 60 = 60 * x - ((60 * ⌊x⌋ : ℤ) : ℝ) by
      unfold mathFloor; push_cast; ring]
    unfold mathFloor
    rw [Int.floor_sub_int]
  rw [hmin]
  rw [show (x - mathFloor x) * 60 - ((⌊60 * x⌋ - 60 * ⌊x⌋ : ℤ) : ℝ)
      = (x - mathFloor x) * 60 - (⌊60 * x⌋ : ℝ) + 60 * ⌊x⌋ by push_cast; ring]
  rw [show ((x - mathFloor x) * 60 - (⌊60 * x⌋ : ℝ) + 60 * ⌊x⌋) * 60
      = 3600 * x - ((60 * ⌊60 * x⌋ : ℤ) : ℝ) by
    unfold mathFloor; push_cast; ring]
  rw [Int.floor_sub_int]

/-- Total seconds within the day encoded by a built timestamp. -/
def toSecondsOfDay (ts : GoTimestamp) : ℤ :=
  ts.hour * 3600 + ts.minute * 60 + ts.second

lemma toSecondsOfDay_mkResult (today : GoNow) (x : ℝ) :
    toSecondsOfDay (mkResult today x) = ⌊3600 * x⌋ := by
  unfold toSecondsOfDay mkResult
  simp only [goInt_goHour, goInt_goMinute, goInt_goSecond]
  ring

lemma floor_step_bounds (x : ℝ) :
    0 ≤ ⌊60 * x⌋ - 60 * ⌊x⌋ ∧ ⌊60 * x⌋ - 60 * ⌊x⌋ ≤ 59 := by
  have h1 : (0 : ℝ) ≤ x - ⌊x⌋ := by linarith [Int.floor_le x]
  have h2 : x - ⌊x⌋ < 1 := by linarith [Int.lt_floor_add_one x]
  have key : ⌊60 * x⌋ - 60 * ⌊x⌋ = ⌊60 * (x - ⌊x⌋)⌋ := by
    rw [show (60 : ℝ) * (x - ⌊x⌋) = 60 * x - ((60 * ⌊x⌋ : ℤ) : ℝ) by
      push_cast; ring]
    rw [Int.floor_sub_int]
  have hlow : 0 ≤ ⌊60 * (x - ⌊x⌋)⌋ :=
    Int.floor_nonneg.mpr (by linarith)
  have hupp : ⌊(60 : ℝ) * (x - ⌊x⌋)⌋ < 60 :=
    Int.floor_lt.mpr (by push_cast; linarith)
  omega

lemma degreeAcos_nonneg (y : ℝ) : 0 ≤ degreeAcos y := by
  unfold degreeAcos radianToDegree
  have := Real.arccos_nonneg y
  positivity

lemma degreeAcos_le (y : ℝ) : degreeAcos y ≤ 180 := by
  unfold degreeAcos radianToDegree
  have hpi := Real.pi_pos
  have h2 : (180 / Real.pi) * Real.arccos y ≤ (180 / Real.pi) * Real.pi :=
    mul_le_mul_of_nonneg_left (Real.arccos_le_pi y) (by positivity)
  have h3 : (180 / Real.pi) * Real.pi = 180 := by field_simp
  linarith

lemma sunL_mem (sunrise : Bool) (longitude n : ℝ) :
    0 ≤ sunL sunrise longitude n ∧ sunL sunrise longitude n < 360 := by
  unfold sunL
  exact ⟨normalizeRange_nonneg _ _ (by norm_num), normalizeRange_lt _ _ (by norm_num)⟩

lemma sunRA0_mem (sunrise : Bool) (longitude n : ℝ) :
    0 ≤ sunRA0 sunrise longitude n ∧ sunRA0 sunrise longitude n < 360 := by
  unfold sunRA0
  exact ⟨normalizeRange_nonneg _ _ (by norm_num), normalizeRange_lt _ _ (by norm_num)⟩

lemma sunRAadj_mem (sunrise : Bool) (longitude n : ℝ) :
    0 ≤ sunRAadj sunrise longitude n ∧ sunRAadj sunrise longitude n < 360 := by
  obtain ⟨hL0, hL1⟩ := sunL_mem sunrise longitude n
  obtain ⟨hR0, hR1⟩ := sunRA0_mem sunrise longitude n
  set L := sunL sunrise longitude n with hLdef
  set R := sunRA0 sunrise longitude n with hRdef
  unfold sunRAadj sunLquadrant sunRAquadrant mathFloor
  rw [← hLdef, ← hRdef]
  have ha : 0 ≤ ⌊L / 90⌋ := Int.floor_nonneg.mpr (by positivity)
  have hb : ⌊L / 90⌋ < 4 := Int.floor_lt.mpr (by push_cast; linarith)
  have hc : ((⌊L / 90⌋ : ℤ) : ℝ) ≤ 3 := by exact_mod_cast (by omega : ⌊L / 90⌋ ≤ 3)
  have hd : (0 : ℝ) ≤ ((⌊L / 90⌋ : ℤ) : ℝ) := by exact_mod_cast ha
  have he : ((⌊R / 90⌋ : ℤ) : ℝ) ≤ R / 90 := Int.floor_le _
  have hf : R / 90 < ((⌊R / 90⌋ : ℤ) : ℝ) + 1 := Int.lt_floor_add_one _
  constructor
  · nlinarith
  · nlinarith

lemma sunRA_mem (sunrise : Bool) (longitude n : ℝ) :
    0 ≤ sunRA sunrise longitude n ∧ sunRA sunrise longitude n < 24 := by
  obtain ⟨h0, h1⟩ := sunRAadj_mem sunrise longitude n
  unfold sunRA
  constructor
  · positivity
  · rw [div_lt_iff (by norm_num : (0 : ℝ) < 15)]
    linarith

lemma sunHdeg_mem (sunrise : Bool) (latitude longitude zenith n : ℝ) :
    0 ≤ sunHdeg sunrise latitude longitude zenith n
      ∧ sunHdeg sunrise latitude longitude zenith n ≤ 360 := by
  unfold sunHdeg
  have h0 := degreeAcos_nonneg (sunCosH sunrise latitude longitude zenith n)
  have h1 := degreeAcos_le (sunCosH sunrise latitude longitude zenith n)
  split <;> constructor <;> linarith

lemma sunUT_mem (sunrise : Bool) (latitude longitude zenith n : ℝ) :
    0 ≤ sunUT sunrise latitude longitude zenith n
      ∧ sunUT sunrise latitude longitude zenith n < 24 := by
  unfold sunUT
  exact ⟨normalizeRange_nonneg _ _ (by norm_num), normalizeRange_lt _ _ (by norm_num)⟩

lemma sunLocalT_mem (sunrise : Bool) (latitude longitude zenith n off : ℝ) :
    0 ≤ sunLocalT sunrise latitude longitude zenith n off
      ∧ sunLocalT sunrise latitude longitude zenith n off < 24 := by
  unfold sunLocalT
  exact ⟨normalizeRange_nonneg _ _ (by norm_num), normalizeRange_lt _ _ (by norm_num)⟩

lemma sunRiseSet_ok_inv {sunrise : Bool} {latitude longitude zenith : ℝ}
    {today : GoNow} {dt : GoTimestamp}
    (h : sunRiseSet sunrise latitude longitude zenith today = Except.ok dt) :
    dt = mkResult today
      (sunLocalT sunrise latitude longitude zenith (today.yearDay : ℝ)
        ((today.zone.offsetSeconds : ℝ) / 3600)) := by
  unfold sunRiseSet at h
  split at h
  · exact absurd h (by simp)
  · exact (Except.ok.injEq _ _).mp h.symm

lemma sunCosH_equator_vertical (sunrise : Bool) (longitude n : ℝ) :
    sunCosH sunrise 0 longitude 90 n = 0 := by
  unfold sunCosH
  have h90 : degreeCos 90 = 0 := by
    unfold degreeCos degreeToRadian
    rw [show (Real.pi / 180) * 90 = Real.pi / 2 by ring, Real.cos_pi_div_two]
  have h0 : degreeSin 0 = 0 := by
    unfold degreeSin degreeToRadian
    rw [mul_zero, Real.sin_zero]
  rw [h90, h0, mul_zero, sub_zero, zero_div]

/-- The fixed reference instant used for concrete executions: 2025-04-10,
day 100 of the year, in a zone with offset 0. -/
def today0 : GoNow :=
  { year := 2025, month := 4, day := 10, yearDay := 100,
    zone := { name := "UTC", offsetSeconds := 0 } }

lemma sunRiseSet_rise0_ok :
    sunRiseSet true 0 0 90 today0
      = Except.ok (mkResult today0 (sunLocalT true 0 0 90 100 0)) := by
  have hc := sunCosH_equator_vertical true 0 ((today0.yearDay : ℤ) : ℝ)
  unfold sunRiseSet
  rw [hc, if_neg (by norm_num)]
  norm_num [today0]

/-- C2: each intermediate value of the calculator equals the reference
nine-step formula with the stated constants: the approximate time `t`, the
mean anomaly `M`, the true longitude `L`, the right ascension `RA` (in
hours), `sinDec`, `cosH`, the hour angle `H` (in hours) and the local mean
time `T`, with all trigonometry in degrees. -/
theorem claimC2_intermediates_match_reference (sunrise : Bool)
    (latitude longitude zenith n : ℝ) :
    sun_t sunrise longitude n = ref_t sunrise longitude n
      ∧ sunM sunrise longitude n = refM sunrise longitude n
      ∧ sunL sunrise longitude n = refL sunrise longitude n
      ∧ sunRA sunrise longitude n = refRA sunrise longitude n
      ∧ sunSinDec sunrise longitude n = refSinDec sunrise longitude n
      ∧ sunCosH sunrise latitude longitude zenith n
          = refCosH sunrise latitude longitude zenith n
      ∧ sunH sunrise latitude longitude zenith n
          = refH sunrise latitude longitude zenith n
      ∧ sunTmean sunrise latitude longitude zenith n
          = refTmean sunrise latitude longitude zenith n :=
  ⟨sun_t_eq_ref sunrise longitude n, sunM_eq_ref sunrise longitude n,
    sunL_eq_ref sunrise longitude n, sunRA_eq_ref sunrise longitude n,
    sunSinDec_eq_ref sunrise longitude n,
    sunCosH_eq_ref sunrise latitude longitude zenith n,
    sunH_eq_ref sunrise latitude longitude zenith n,
    sunTmean_eq_ref sunrise latitude longitude zenith n⟩

/-- C4: each of the four entry points delegates to `sunRiseSet` with
exactly the selector table's pair — `SunRise` with (rising, 90), `SunSet`
with (setting, 90), `Dawn` with (rising, 83), `Dusk` with (setting, 83) —
and latitude/longitude are passed through unchanged and unvalidated. -/
theorem claimC4_entry_points_delegate (latitude longitude : ℝ) (today : GoNow) :
    SunRise latitude longitude today = sunRiseSet true latitude longitude 90 today
      ∧ SunSet latitude longitude today = sunRiseSet false latitude longitude 90 today
      ∧ Dawn latitude longitude today = sunRiseSet true latitude longitude 83 today
      ∧ Dusk latitude longitude today = sunRiseSet false latitude longitude 83 today :=
  ⟨rfl, rfl, rfl, rfl⟩

/-- C6: for every `v` and positive `max`, `normalize` is idempotent and
its result lies in `[0, max)`. -/
theorem claimC6_normalize_idempotent_and_in_range (v m : ℝ) (hm : 0 < m) :
    normalizeRange (normalizeRange v m) m = normalizeRange v m
      ∧ 0 ≤ normalizeRange v m ∧ normalizeRange v m < m :=
  ⟨normalizeRange_eq_self (normalizeRange_nonneg v m hm) (normalizeRange_lt v m hm),
    normalizeRange_nonneg v m hm, normalizeRange_lt v m hm⟩

/-- Witness for C6 at the concrete input `v = 370`, `max = 360`. -/
theorem claimC6_witness :
    (0 : ℝ) < 360
      ∧ (normalizeRange (normalizeRange (370 : ℝ) 360) 360
            = normalizeRange (370 : ℝ) 360
          ∧ 0 ≤ normalizeRange (370 : ℝ) 360
          ∧ normalizeRange (370 : ℝ) 360 < 360) :=
  ⟨by norm_num, claimC6_normalize_idempotent_and_in_range 370 360 (by norm_num)⟩

/-- C7: for every `v` and positive `max`, the two `normalize` loops
terminate — some finite amount of fuel makes the step-indexed loops reach
the exit condition, and the value they produce is `normalizeRange v max`. -/
theorem claimC7_normalize_terminates (v m : ℝ) (hm : 0 < m) :
    ∃ fuel, normalizeFuel fuel v m = some (normalizeRange v m) := by
  obtain ⟨a, ha⟩ := normUp_fuel_exists v m hm
  obtain ⟨b, hb⟩ := normDown_fuel_exists (normUp v m) m hm
  refine ⟨a + b, ?_⟩
  unfold normalizeFuel
  rw [normUpFuel_mono (Nat.le_add_right a b) ha]
  simpa using normDownFuel_mono (Nat.le_add_left b a) hb

/-- Witness for C7 at the concrete input `v = 370`, `max = 360`. -/
theorem claimC7_witness :
    (0 : ℝ) < 360
      ∧ ∃ fuel, normalizeFuel fuel (370 : ℝ) 360
          = some (normalizeRange (370 : ℝ) 360) :=
  ⟨by norm_num, claimC7_normalize_terminates 370 360 (by norm_num)⟩

/-- C8: the three concrete `normalize` values stated by the spec. -/
theorem claimC8_normalize_values :
    normalizeRange (370 : ℝ) 360 = 10
      ∧ normalizeRange (-10 : ℝ) 360 = 350
      ∧ normalizeRange (25 : ℝ) 24 = 1 := by
  refine ⟨?_, ?_, ?_⟩
  · rw [normalizeRange_sub (by norm_num) (by norm_num) (by norm_num)]
    norm_num
  · have h1 : normUp (-10 : ℝ) 360 = normUp 350 360 := by
      rw [normUp_of_neg (by norm_num) (by norm_num)]
      norm_num
    rw [normalizeRange, h1, normUp_of_nonneg _ (by norm_num),
      normDown_of_lt (by norm_num)]
  · rw [normalizeRange_sub (by norm_num) (by norm_num) (by norm_num)]
    norm_num

/-- C10: whenever the calculator returns a timestamp, its date fields are
the reference instant's, the hour is in `[0,23]`, the minute and second in
`[0,59]`, and the nanosecond field is exactly 0, because the local time is
normalized into `[0,24)` before the floor decomposition. -/
theorem claimC10_result_components_in_range (sunrise : Bool)
    (latitude longitude zenith : ℝ) (today : GoNow) (dt : GoTimestamp)
    (h : sunRiseSet sunrise latitude longitude zenith today = Except.ok dt) :
    dt.year = today.year ∧ dt.month = today.month ∧ dt.day = today.day
      ∧ (0 ≤ dt.hour ∧ dt.hour ≤ 23) ∧ (0 ≤ dt.minute ∧ dt.minute ≤ 59)
      ∧ (0 ≤ dt.second ∧ dt.second ≤ 59) ∧ dt.nanosecond = 0 := by
  have hdt := sunRiseSet_ok_inv h
  subst hdt
  obtain ⟨hx0, hx1⟩ := sunLocalT_mem sunrise latitude longitude zenith
    ((today.yearDay : ℤ) : ℝ) ((today.zone.offsetSeconds : ℝ) / 3600)
  set x := sunLocalT sunrise latitude longitude zenith
    ((today.yearDay : ℤ) : ℝ) ((today.zone.offsetSeconds : ℝ) / 3600) with hxdef
  refine ⟨rfl, rfl, rfl, ?_, ?_, ?_, rfl⟩
  · show 0 ≤ goInt (goHour x) ∧ goInt (goHour x) ≤ 23
    rw [goInt_goHour]
    have hlow : 0 ≤ ⌊x⌋ := Int.floor_nonneg.mpr hx0
    have hupp : ⌊x⌋ < 24 := Int.floor_lt.mpr (by exact_mod_cast hx1)
    omega
  · show 0 ≤ goInt (goMinute x) ∧ goInt (goMinute x) ≤ 59
    rw [goInt_goMinute]
    exact floor_step_bounds x
  · show 0 ≤ goInt (goSecond x) ∧ goInt (goSecond x) ≤ 59
    rw [goInt_goSecond]
    have hfb := floor_step_bounds (60 * x)
    rw [show (60 : ℝ) * (60 * x) = 3600 * x by ring] at hfb
    exact hfb

/-- The timestamp returned by the concrete sunrise computation at the
equator on `today0`. -/
noncomputable def riseResult0 : GoTimestamp :=
  mkResult today0 (sunLocalT true 0 0 90 100 0)

lemma refMinute_eq (x : ℝ) : refMinute x = ⌊60 * x⌋ - 60 * ⌊x⌋ := by
  unfold refMinute refHour
  rw [show (x - ((⌊x⌋ : ℤ) : ℝ)) * 60 = 60 * x - ((60 * ⌊x⌋ : ℤ) : ℝ) by
    push_cast; ring]
  rw [Int.floor_sub_int]

lemma goInt_goMinute_eq_ref (x : ℝ) : goInt (goMinute x) = refMinute x := by
  rw [goInt_goMinute, refMinute_eq]

lemma goInt_goSecond_eq_ref (x : ℝ) : goInt (goSecond x) = refSecond x := by
  rw [goInt_goSecond]
  unfold refSecond refHour
  rw [refMinute_eq]
  rw [show (x - ((⌊x⌋ : ℤ) : ℝ)) * 60 - ((⌊60 * x⌋ - 60 * ⌊x⌋ : ℤ) : ℝ)
      = 60 * x - (⌊60 * x⌋ : ℝ) by push_cast; ring]
  rw [show ((60 : ℝ) * x - (⌊60 * x⌋ : ℝ)) * 60
      = 3600 * x - ((60 * ⌊60 * x⌋ : ℤ) : ℝ) by push_cast; ring]
  rw [Int.floor_sub_int]

/-- C3: every successful computation builds its result from the spec's
formulas: `UT = normalize(T - lngHour, 24)`,
`localT = normalize(UT + localUtcOffsetHours, 24)` with the reference
instant's offset, the hour/minute/second are the spec's floor
decomposition of `localT`, and the timestamp carries the reference
instant's year, month and day in the reference instant's zone. -/
theorem claimC3_result_from_reference_formulas (sunrise : Bool)
    (latitude longitude zenith : ℝ) (today : GoNow) (dt : GoTimestamp)
    (h : sunRiseSet sunrise latitude longitude zenith today = Except.ok dt) :
    dt.hour = refHour (refLocalT sunrise latitude longitude zenith
        ((today.yearDay : ℤ) : ℝ) ((today.zone.offsetSeconds : ℝ) / 3600))
      ∧ dt.minute = refMinute (refLocalT sunrise latitude longitude zenith
          ((today.yearDay : ℤ) : ℝ) ((today.zone.offsetSeconds : ℝ) / 3600))
      ∧ dt.second = refSecond (refLocalT sunrise latitude longitude zenith
          ((today.yearDay : ℤ) : ℝ) ((today.zone.offsetSeconds : ℝ) / 3600))
      ∧ dt.year = today.year ∧ dt.month = today.month ∧ dt.day = today.day
      ∧ dt.loc = today.zone := by
  have hdt := sunRiseSet_ok_inv h
  subst hdt
  have hloc := sunLocalT_eq_ref sunrise latitude longitude zenith
    ((today.yearDay : ℤ) : ℝ) ((today.zone.offsetSeconds : ℝ) / 3600)
  refine ⟨?_, ?_, ?_, rfl, rfl, rfl, rfl⟩
  · show goInt (goHour _) = _
    rw [goInt_goHour, hloc]
    rfl
  · show goInt (goMinute _) = _
    rw [goInt_goMinute_eq_ref, hloc]
  · show goInt (goSecond _) = _
    rw [goInt_goSecond_eq_ref, hloc]

/-- Witness for C3 at the concrete input: rising, latitude 0, longitude
0, zenith 90, reference instant `today0`. -/
theorem claimC3_witness :
    sunRiseSet true 0 0 90 today0 = Except.ok riseResult0
      ∧ (riseResult0.hour = refHour (refLocalT true 0 0 90
            ((today0.yearDay : ℤ) : ℝ) ((today0.zone.offsetSeconds : ℝ) / 3600))
          ∧ riseResult0.minute = refMinute (refLocalT true 0 0 90
              ((today0.yearDay : ℤ) : ℝ) ((today0.zone.offsetSeconds : ℝ) / 3600))
          ∧ riseResult0.second = refSecond (refLocalT true 0 0 90
              ((today0.yearDay : ℤ) : ℝ) ((today0.zone.offsetSeconds : ℝ) / 3600))
          ∧ riseResult0.year = today0.year ∧ riseResult0.month = today0.month
          ∧ riseResult0.day = today0.day ∧ riseResult0.loc = today0.zone) :=
  ⟨sunRiseSet_rise0_ok,
    claimC3_result_from_reference_formulas true 0 0 90 today0 riseResult0
      sunRiseSet_rise0_ok⟩

/-- Witness for C10 at the concrete input: rising, latitude 0, longitude
0, zenith 90, reference instant `today0`. -/
theorem claimC10_witness :
    sunRiseSet true 0 0 90 today0 = Except.ok riseResult0
      ∧ (riseResult0.year = today0.year ∧ riseResult0.month = today0.month
          ∧ riseResult0.day = today0.day
          ∧ (0 ≤ riseResult0.hour ∧ riseResult0.hour ≤ 23)
          ∧ (0 ≤ riseResult0.minute ∧ riseResult0.minute ≤ 59)
          ∧ (0 ≤ riseResult0.second ∧ riseResult0.second ≤ 59)
          ∧ riseResult0.nanosecond = 0) :=
  ⟨sunRiseSet_rise0_ok,
    claimC10_result_components_in_range true 0 0 90 today0 riseResult0
      sunRiseSet_rise0_ok⟩

lemma degreeToRadian_radianToDegree (x : ℝ) :
    degreeToRadian (radianToDegree x) = x := by
  unfold degreeToRadian radianToDegree
  have hpi := Real.pi_ne_zero
  field_simp
  ring

lemma degreeCos_degreeAsin (x : ℝ) :
    degreeCos (degreeAsin x) = Real.sqrt (1 - x ^ 2) := by
  unfold degreeCos degreeAsin
  rw [degreeToRadian_radianToDegree]
  exact Real.cos_arcsin x

lemma degreeSin_degreeAtan (x : ℝ) :
    degreeSin (degreeAtan x) = x / Real.sqrt (1 + x ^ 2) := by
  unfold degreeSin degreeAtan
  rw [degreeToRadian_radianToDegree]
  exact Real.sin_arctan x

lemma degreeCos_degreeAtan (x : ℝ) :
    degreeCos (degreeAtan x) = 1 / Real.sqrt (1 + x ^ 2) := by
  unfold degreeCos degreeAtan
  rw [degreeToRadian_radianToDegree]
  exact Real.cos_arctan x

lemma degreeSin_zero : degreeSin 0 = 0 := by
  unfold degreeSin degreeToRadian
  rw [mul_zero, Real.sin_zero]

lemma degreeCos_zero_eq : degreeCos 0 = 1 := by
  unfold degreeCos degreeToRadian
  rw [mul_zero, Real.cos_zero]

lemma degreeCos_90 : degreeCos 90 = 0 := by
  unfold degreeCos degreeToRadian
  rw [show (Real.pi / 180) * 90 = Real.pi / 2 by ring, Real.cos_pi_div_two]

lemma degreeCos_180 : degreeCos 180 = -1 := by
  unfold degreeCos degreeToRadian
  have h : (Real.pi / 180) * 180 = Real.pi := by
    field_simp
  rw [h, Real.cos_pi]

lemma degreeAcos_zero_eq : degreeAcos 0 = 90 := by
  unfold degreeAcos radianToDegree
  rw [Real.arccos_zero]
  have hpi := Real.pi_ne_zero
  field_simp
  ring

lemma degreeAcos_one_eq : degreeAcos 1 = 0 := by
  unfold degreeAcos radianToDegree
  rw [Real.arccos_one, mul_zero]

lemma degreeSin_mem (x : ℝ) : -1 ≤ degreeSin x ∧ degreeSin x ≤ 1 :=
  ⟨Real.neg_one_le_sin _, Real.sin_le_one _⟩

lemma sun_t_00 : sun_t true 0 100 = 100.25 := by
  norm_num [sun_t, goSunset, lngHour]

lemma sunM_00 : sunM true 0 100 = 95.5174 := by
  unfold sunM
  rw [sun_t_00]
  norm_num

lemma sunL_00_bounds : 16 ≤ sunL true 0 100 ∧ sunL true 0 100 ≤ 21 := by
  unfold sunL
  rw [sunM_00]
  obtain ⟨ha1, ha2⟩ := degreeSin_mem (95.5174 : ℝ)
  obtain ⟨hb1, hb2⟩ := degreeSin_mem (2 * 95.5174 : ℝ)
  rw [normalizeRange_sub (by norm_num) (by linarith) (by linarith)]
  constructor <;> linarith

lemma sinL_00_pos : 0 < degreeSin (sunL true 0 100) := by
  obtain ⟨h1, h2⟩ := sunL_00_bounds
  unfold degreeSin degreeToRadian
  apply Real.sin_pos_of_pos_of_lt_pi
  · nlinarith [Real.pi_pos]
  · nlinarith [Real.pi_pos]

lemma sunSinDec_00_pos : 0 < sunSinDec true 0 100 := by
  unfold sunSinDec
  exact mul_pos (by norm_num) sinL_00_pos

lemma sunSinDec_00_le : sunSinDec true 0 100 ≤ 0.39782 := by
  unfold sunSinDec
  have h := (degreeSin_mem (sunL true 0 100)).2
  nlinarith

lemma sunCosDec_00_eq :
    sunCosDec true 0 100 = Real.sqrt (1 - sunSinDec true 0 100 ^ 2) := by
  unfold sunCosDec
  exact degreeCos_degreeAsin _

lemma sunCosDec_00_pos : 0 < sunCosDec true 0 100 := by
  rw [sunCosDec_00_eq]
  apply Real.sqrt_pos.mpr
  nlinarith [sunSinDec_00_pos, sunSinDec_00_le]

lemma sunCosDec_00_lt_one : sunCosDec true 0 100 < 1 := by
  rw [sunCosDec_00_eq, Real.sqrt_lt' one_pos]
  nlinarith [sunSinDec_00_pos]

lemma sunCosDec_00_gt_half : 1 / 2 < sunCosDec true 0 100 := by
  rw [sunCosDec_00_eq, Real.lt_sqrt (by norm_num)]
  nlinarith [sunSinDec_00_pos, sunSinDec_00_le]

lemma today0_yearDay_cast : ((today0.yearDay : ℤ) : ℝ) = 100 := by
  norm_num [today0]

lemma c1_cosH_gt : 1 < sunCosH true 0 0 0 100 := by
  unfold sunCosH
  rw [degreeCos_zero_eq, degreeSin_zero, mul_zero, sub_zero, mul_one]
  rw [lt_div_iff sunCosDec_00_pos]
  nlinarith [sunCosDec_00_lt_one]

lemma c1_cosH_lt : sunCosH true 0 0 180 100 < -1 := by
  unfold sunCosH
  rw [degreeCos_180, degreeCos_zero_eq, degreeSin_zero, mul_zero, sub_zero,
    mul_one]
  rw [div_lt_iff sunCosDec_00_pos]
  nlinarith [sunCosDec_00_lt_one]

/-- C1 counterexample: on day 100 at the equator, the calculator hits the
`cosH > 1` condition at zenith 0 and the `cosH < -1` condition at zenith
180, yet it produces the *same* outcome for both — the single generic
abort `"no answer"` — so the two conditions are conflated and are not
reported as two distinct, distinguishable outcomes. -/
theorem claimC1_counterexample_conditions_conflated :
    1 < sunCosH true 0 0 0 ((today0.yearDay : ℤ) : ℝ)
      ∧ sunCosH true 0 0 180 ((today0.yearDay : ℤ) : ℝ) < -1
      ∧ sunRiseSet true 0 0 0 today0 = Except.error "no answer"
      ∧ sunRiseSet true 0 0 180 today0 = Except.error "no answer"
      ∧ sunRiseSet true 0 0 0 today0 = sunRiseSet true 0 0 180 today0 := by
  have h1 : 1 < sunCosH true 0 0 0 ((today0.yearDay : ℤ) : ℝ) := by
    rw [today0_yearDay_cast]
    exact c1_cosH_gt
  have h2 : sunCosH true 0 0 180 ((today0.yearDay : ℤ) : ℝ) < -1 := by
    rw [today0_yearDay_cast]
    exact c1_cosH_lt
  have e1 : sunRiseSet true 0 0 0 today0 = Except.error "no answer" := by
    unfold sunRiseSet
    rw [if_pos (Or.inl h1)]
  have e2 : sunRiseSet true 0 0 180 today0 = Except.error "no answer" := by
    unfold sunRiseSet
    rw [if_pos (Or.inr h2)]
  exact ⟨h1, h2, e1, e2, e1.trans e2.symm⟩

/-- C1 amended: whenever `cosH` leaves `[-1,1]`, the calculator halts
without returning a timestamp, but it aborts with the single generic
`"no answer"` outcome (the source's `panic`), which does not distinguish
the never-rises condition from the never-sets condition. -/
theorem claimC1_amended_generic_abort (sunrise : Bool)
    (latitude longitude zenith : ℝ) (today : GoNow)
    (h : sunCosH sunrise latitude longitude zenith ((today.yearDay : ℤ) : ℝ) > 1
      ∨ sunCosH sunrise latitude longitude zenith ((today.yearDay : ℤ) : ℝ) < -1) :
    sunRiseSet sunrise latitude longitude zenith today
      = Except.error "no answer" := by
  unfold sunRiseSet
  rw [if_pos h]

/-- Witness for the amended C1 at the concrete input: rising, latitude 0,
longitude 0, zenith 0, reference instant `today0`. -/
theorem claimC1_witness :
    (sunCosH true 0 0 0 ((today0.yearDay : ℤ) : ℝ) > 1
        ∨ sunCosH true 0 0 0 ((today0.yearDay : ℤ) : ℝ) < -1)
      ∧ sunRiseSet true 0 0 0 today0 = Except.error "no answer" := by
  have h1 : sunCosH true 0 0 0 ((today0.yearDay : ℤ) : ℝ) > 1 := by
    rw [today0_yearDay_cast]
    exact c1_cosH_gt
  exact ⟨Or.inl h1, claimC1_amended_generic_abort true 0 0 0 today0 (Or.inl h1)⟩

/-- A latitude at which `cosH` is exactly 1 for the rising computation on
day 100 at longitude 0 and zenith 90. -/
noncomputable def latC5 : ℝ :=
  degreeAtan (-(sunCosDec true 0 100 / sunSinDec true 0 100))

lemma c5_cosH_one : sunCosH true latC5 0 90 100 = 1 := by
  have hs := sunSinDec_00_pos
  have hc := sunCosDec_00_pos
  unfold sunCosH latC5
  rw [degreeCos_90, degreeSin_degreeAtan, degreeCos_degreeAtan]
  set s := sunSinDec true 0 100 with hsdef
  set c := sunCosDec true 0 100 with hcdef
  have hs' : s ≠ 0 := ne_of_gt hs
  have hc' : c ≠ 0 := ne_of_gt hc
  have hK : (0 : ℝ) < Real.sqrt (1 + (-(c / s)) ^ 2) :=
    Real.sqrt_pos.mpr (by positivity)
  have hK' : Real.sqrt (1 + (-(c / s)) ^ 2) ≠ 0 := ne_of_gt hK
  field_simp
  ring

lemma c5_Hdeg_360 : sunHdeg true latC5 0 90 100 = 360 := by
  unfold sunHdeg
  rw [if_neg (by simp [goSunset])]
  rw [c5_cosH_one, degreeAcos_one_eq]
  norm_num

/-- C5 counterexample: an execution of the calculator (rising, longitude
0, zenith 90, day 100, latitude `latC5`) in which `cosH = 1`, the
hour-angle check passes and a timestamp is returned, yet the intermediate
hour angle `H` equals 360 — outside the canonical range `[0,360)` — at the
moment it is used in the subsequent steps, because the source never
normalizes `H`. -/
theorem claimC5_counterexample_H_not_in_range :
    sunCosH true latC5 0 90 ((today0.yearDay : ℤ) : ℝ) = 1
      ∧ sunHdeg true latC5 0 90 ((today0.yearDay : ℤ) : ℝ) = 360
      ∧ ¬ sunHdeg true latC5 0 90 ((today0.yearDay : ℤ) : ℝ) < 360
      ∧ sunRiseSet true latC5 0 90 today0
          = Except.ok (mkResult today0 (sunLocalT true latC5 0 90 100 0)) := by
  have h1 : sunCosH true latC5 0 90 ((today0.yearDay : ℤ) : ℝ) = 1 := by
    rw [today0_yearDay_cast]
    exact c5_cosH_one
  have h2 : sunHdeg true latC5 0 90 ((today0.yearDay : ℤ) : ℝ) = 360 := by
    rw [today0_yearDay_cast]
    exact c5_Hdeg_360
  refine ⟨h1, h2, by rw [h2]; norm_num, ?_⟩
  unfold sunRiseSet
  rw [if_neg (by rw [h1]; norm_num)]
  rw [today0_yearDay_cast]
  norm_num [today0]

/-- C5 amended: in every execution, `L`, the adjusted right ascension, the
right ascension in hours, `UT` and the local time are inside their
canonical ranges before any subsequent use, but the hour angle `H` is
never normalized by the code and only satisfies the closed bound
`0 ≤ H ≤ 360` (in degrees): the endpoint `H = 360` is attained exactly
when `cosH = 1` in a rising computation. -/
theorem claimC5_amended_ranges (sunrise : Bool)
    (latitude longitude zenith n off : ℝ) :
    (0 ≤ sunL sunrise longitude n ∧ sunL sunrise longitude n < 360)
      ∧ (0 ≤ sunRAadj sunrise longitude n ∧ sunRAadj sunrise longitude n < 360)
      ∧ (0 ≤ sunRA sunrise longitude n ∧ sunRA sunrise longitude n < 24)
      ∧ (0 ≤ sunHdeg sunrise latitude longitude zenith n
          ∧ sunHdeg sunrise latitude longitude zenith n ≤ 360)
      ∧ (0 ≤ sunUT sunrise latitude longitude zenith n
          ∧ sunUT sunrise latitude longitude zenith n < 24)
      ∧ (0 ≤ sunLocalT sunrise latitude longitude zenith n off
          ∧ sunLocalT sunrise latitude longitude zenith n off < 24) :=
  ⟨sunL_mem sunrise longitude n, sunRAadj_mem sunrise longitude n,
    sunRA_mem sunrise longitude n, sunHdeg_mem sunrise latitude longitude zenith n,
    sunUT_mem sunrise latitude longitude zenith n,
    sunLocalT_mem sunrise latitude longitude zenith n off⟩

lemma cos83_pos : 0 < degreeCos 83 := by
  unfold degreeCos degreeToRadian
  apply Real.cos_pos_of_mem_Ioo
  rw [Set.mem_Ioo]
  constructor
  · nlinarith [Real.pi_pos]
  · nlinarith [Real.pi_pos]

lemma cos83_le_half : degreeCos 83 ≤ 1 / 2 := by
  unfold degreeCos degreeToRadian
  have h := Real.cos_le_cos_of_nonneg_of_le_pi
    (x := Real.pi / 3) (y := Real.pi / 180 * 83)
    (by positivity) (by nlinarith [Real.pi_pos]) (by nlinarith [Real.pi_pos])
  rw [Real.cos_pi_div_three] at h
  exact h

lemma cos83_ge : 0.12 ≤ degreeCos 83 := by
  unfold degreeCos degreeToRadian
  rw [show Real.pi / 180 * 83 = Real.pi / 2 - 7 * Real.pi / 180 by ring,
    Real.cos_pi_div_two_sub]
  set x := 7 * Real.pi / 180 with hxdef
  have hx1 : 0.122 ≤ x := by
    rw [hxdef]
    nlinarith [Real.pi_gt_d4]
  have hx2 : x ≤ 0.1222 := by
    rw [hxdef]
    nlinarith [Real.pi_lt_d4]
  have hs := Real.sin_gt_sub_cube (by linarith : 0 < x) (by linarith : x ≤ 1)
  have hcube : x ^ 3 ≤ 0.1222 ^ 3 :=
    pow_le_pow_left (by linarith) hx2 3
  nlinarith

lemma c9_cosH_dawn_lb : 0.12 ≤ sunCosH true 0 0 83 100 := by
  unfold sunCosH
  rw [degreeSin_zero, mul_zero, sub_zero, degreeCos_zero_eq, mul_one]
  rw [le_div_iff sunCosDec_00_pos]
  nlinarith [cos83_ge, sunCosDec_00_lt_one, sunCosDec_00_pos]

lemma c9_cosH_dawn_ub : sunCosH true 0 0 83 100 < 1 := by
  unfold sunCosH
  rw [degreeSin_zero, mul_zero, sub_zero, degreeCos_zero_eq, mul_one]
  rw [div_lt_one sunCosDec_00_pos]
  linarith [cos83_le_half, sunCosDec_00_gt_half]

lemma degreeAcos_le_sub {y : ℝ} (h0 : 0 ≤ y) (h1 : y ≤ 1) :
    degreeAcos y ≤ 90 - (180 / Real.pi) * y := by
  unfold degreeAcos radianToDegree
  have harcsin : y ≤ Real.arcsin y := by
    have ht : 0 ≤ Real.arcsin y := Real.arcsin_nonneg.mpr h0
    rcases eq_or_lt_of_le ht with he | hlt
    · have hy : Real.sin (Real.arcsin y) = y := Real.sin_arcsin (by linarith) h1
      rw [← he, Real.sin_zero] at hy
      linarith
    · have hsin := Real.sin_lt hlt
      rw [Real.sin_arcsin (by linarith) h1] at hsin
      linarith
  have harccos : Real.arccos y ≤ Real.pi / 2 - y := by
    rw [Real.arccos_eq_pi_div_two_sub_arcsin]
    linarith
  have hpi := Real.pi_pos
  have hmul : (180 / Real.pi) * Real.arccos y
      ≤ (180 / Real.pi) * (Real.pi / 2 - y) :=
    mul_le_mul_of_nonneg_left harccos (by positivity)
  have hiden : (180 / Real.pi) * (Real.pi / 2 - y)
      = 90 - (180 / Real.pi) * y := by
    field_simp
    ring
  linarith

lemma c9_Hdeg_dawn_bounds :
    276 ≤ sunHdeg true 0 0 83 100 ∧ sunHdeg true 0 0 83 100 ≤ 360 := by
  have hlb := c9_cosH_dawn_lb
  have hub := c9_cosH_dawn_ub
  unfold sunHdeg
  rw [if_neg (by simp [goSunset])]
  have hacos_le := degreeAcos_le_sub
    (y := sunCosH true 0 0 83 100) (by linarith) (by linarith)
  have hacos_nonneg := degreeAcos_nonneg (sunCosH true 0 0 83 100)
  have h57 : (57 : ℝ) < 180 / Real.pi := by
    rw [lt_div_iff Real.pi_pos]
    nlinarith [Real.pi_lt_d4]
  have hprod : 57 * 0.12 ≤ (180 / Real.pi) * sunCosH true 0 0 83 100 := by
    nlinarith
  constructor
  · linarith
  · linarith

lemma c9_Hdeg_rise : sunHdeg true 0 0 90 100 = 270 := by
  unfold sunHdeg
  rw [if_neg (by simp [goSunset])]
  rw [sunCosH_equator_vertical true 0 100, degreeAcos_zero_eq]
  norm_num

lemma c9_RA_bounds : 0 ≤ sunRA true 0 100 ∧ sunRA true 0 100 < 6 := by
  obtain ⟨hR0, hR1⟩ := sunRA0_mem true 0 100
  obtain ⟨hL1, hL2⟩ := sunL_00_bounds
  have hfloorL : ⌊sunL true 0 100 / 90⌋ = 0 := by
    rw [Int.floor_eq_zero_iff, Set.mem_Ico]
    exact ⟨div_nonneg (by linarith) (by norm_num),
      (div_lt_one (by norm_num)).mpr (by linarith)⟩
  unfold sunRA sunRAadj sunLquadrant sunRAquadrant mathFloor
  rw [hfloorL]
  set R := sunRA0 true 0 100 with hRdef
  have he : ((⌊R / 90⌋ : ℤ) : ℝ) ≤ R / 90 := Int.floor_le _
  have hf : R / 90 < ((⌊R / 90⌋ : ℤ) : ℝ) + 1 := Int.lt_floor_add_one _
  simp only [Int.cast_zero]
  constructor
  · apply div_nonneg _ (by norm_num)
    nlinarith
  · rw [div_lt_iff (by norm_num)]
    nlinarith

lemma c9_T_rise_eq : sunTmean true 0 0 90 100 = sunRA true 0 100 + 4.7905725 := by
  unfold sunTmean sunH
  rw [c9_Hdeg_rise, sun_t_00]
  ring_nf

lemma c9_T_dawn_eq : sunTmean true 0 0 83 100
    = sunHdeg true 0 0 83 100 / 15 + sunRA true 0 100 - 13.2094275 := by
  unfold sunTmean sunH
  rw [sun_t_00]
  ring_nf

lemma c9_localT_rise_eq : sunLocalT true 0 0 90 100 0 = sunTmean true 0 0 90 100 := by
  have hT := c9_T_rise_eq
  have hRA := c9_RA_bounds
  have hb1 : (0 : ℝ) ≤ sunTmean true 0 0 90 100 := by linarith [hRA.1]
  have hb2 : sunTmean true 0 0 90 100 < 24 := by linarith [hRA.2]
  unfold sunLocalT sunUT lngHour
  rw [show sunTmean true 0 0 90 100 - (0 : ℝ) / 15 = sunTmean true 0 0 90 100 by
    ring]
  rw [normalizeRange_eq_self hb1 hb2, add_zero, normalizeRange_eq_self hb1 hb2]

lemma c9_localT_dawn_eq : sunLocalT true 0 0 83 100 0 = sunTmean true 0 0 83 100 := by
  have hT := c9_T_dawn_eq
  have hRA := c9_RA_bounds
  have hH := c9_Hdeg_dawn_bounds
  have hb1 : (0 : ℝ) ≤ sunTmean true 0 0 83 100 := by
    rw [hT]
    linarith [hRA.1, hH.1]
  have hb2 : sunTmean true 0 0 83 100 < 24 := by
    rw [hT]
    linarith [hRA.2, hH.2]
  unfold sunLocalT sunUT lngHour
  rw [show sunTmean true 0 0 83 100 - (0 : ℝ) / 15 = sunTmean true 0 0 83 100 by
    ring]
  rw [normalizeRange_eq_self hb1 hb2, add_zero, normalizeRange_eq_self hb1 hb2]

/-- The timestamp returned by the concrete dawn computation at the equator
on `today0`. -/
noncomputable def dawnResult0 : GoTimestamp :=
  mkResult today0 (sunLocalT true 0 0 83 100 0)

lemma sunRiseSet_dawn0_ok :
    sunRiseSet true 0 0 83 today0 = Except.ok dawnResult0 := by
  unfold sunRiseSet
  rw [today0_yearDay_cast]
  rw [if_neg (by push_neg; exact ⟨by linarith [c9_cosH_dawn_ub],
    by linarith [c9_cosH_dawn_lb]⟩)]
  unfold dawnResult0
  norm_num [today0]

/-- C9: the claimed ordering fails on the code.  On day 100 at the equator
all four computations succeed, but `Dawn(0,0)` is strictly LATER than
`SunRise(0,0)` (both timestamps on the same calendar date, dawn at least
1440 seconds after sunrise), because the dawn/dusk zenith 83 places the
Sun above the horizon.  This theorem evaluates the code at the failing
input. -/
theorem claimC9_dawn_strictly_after_sunrise :
    SunRise 0 0 today0 = Except.ok riseResult0
      ∧ Dawn 0 0 today0 = Except.ok dawnResult0
      ∧ riseResult0.year = dawnResult0.year
      ∧ riseResult0.month = dawnResult0.month
      ∧ riseResult0.day = dawnResult0.day
      ∧ toSecondsOfDay riseResult0 < toSecondsOfDay dawnResult0 := by
  have hyr : riseResult0.year = today0.year := rfl
  have hyd : dawnResult0.year = today0.year := rfl
  have hmr : riseResult0.month = today0.month := rfl
  have hmd : dawnResult0.month = today0.month := rfl
  have hdr : riseResult0.day = today0.day := rfl
  have hdd : dawnResult0.day = today0.day := rfl
  refine ⟨sunRiseSet_rise0_ok, sunRiseSet_dawn0_ok, hyr.trans hyd.symm,
    hmr.trans hmd.symm, hdr.trans hdd.symm, ?_⟩
  unfold riseResult0 dawnResult0
  rw [toSecondsOfDay_mkResult, toSecondsOfDay_mkResult]
  rw [c9_localT_rise_eq, c9_localT_dawn_eq]
  have hgap : sunTmean true 0 0 90 100 + 0.4 ≤ sunTmean true 0 0 83 100 := by
    rw [c9_T_rise_eq, c9_T_dawn_eq]
    linarith [c9_Hdeg_dawn_bounds.1]
  have hstep := Int.floor_add_one (3600 * sunTmean true 0 0 90 100)
  have hmono := Int.floor_mono
    (show 3600 * sunTmean true 0 0 90 100 + 1
        ≤ 3600 * sunTmean true 0 0 83 100 by linarith)
  omega

end Sunevent
